import Mathlib

set_option maxHeartbeats 1000000
set_option linter.unusedVariables false

/-!
Shallow embedding of the podcatsBackend repository (FastAPI podcast
generator).  The filesystem is modelled as an association list from path
to byte content; the two remote services (Gemini, ElevenLabs) are
modelled by oracle parameters describing the outcome of each network
exchange, since the repository only observes their network contracts.
Machine-level byte values are plain naturals.
-/

/-- Byte content of an audio file.  pydub decoding/encoding of MP3 data is
modelled as the identity on byte sequences: the assembler's own logic
(ordering, skipping of missing chunks) is kept exactly. -/
abbrev Audio := List Nat

/-- The `files` output directory, as an association list path to content. -/
abbrev FS := List (String × Audio)

/-- Reading a file: first entry whose path matches. -/
def fsGet : FS → String → Option Audio
  | [], _ => none
  | (q, a) :: rest, p => if q = p then some a else fsGet rest p

/-- `os.remove` (deleting every entry at the path; a no-op when absent,
matching the `os.path.exists` guard in `cleanup_files`). -/
def fsRemove (fs : FS) (p : String) : FS :=
  fs.filter (fun e => decide (e.1 ≠ p))

/-- `open(path, "wb")` followed by writing `a`: creates or truncates. -/
def fsWrite (fs : FS) (p : String) (a : Audio) : FS :=
  (p, a) :: fsRemove fs p

/-- Error taxonomy of the backend.  Every constructor is surfaced by the
routes as an HTTP 500 `HTTPException`; the constructors record which code
path raised it (missing credential, `requests` failure, malformed remote
reply, uncaught Python exception). -/
inductive Err
  | config (msg : String)
  | upstream (msg : String)
  | format (msg : String)
  | generic (msg : String)
deriving DecidableEq

/-- Python falsiness of an optional string (`if not value:`): `None` and
the empty string are falsy. -/
def strFalsy : Option String → Bool
  | none => true
  | some s => decide (s = "")

/-! Decimal representation of a natural number, as produced by Python
`str(i)` inside the f-strings that build chunk file names. -/

/-- Accumulator-based decimal digits (most significant first). -/
def decReprAux (n : Nat) (acc : List Char) : List Char :=
  if h : n = 0 then acc
  else decReprAux (n / 10) (Nat.digitChar (n % 10) :: acc)
termination_by n
decreasing_by exact Nat.div_lt_self (Nat.pos_of_ne_zero h) (by decide)

/-- Decimal representation of `n` (`str(n)` in Python). -/
def decRepr (n : Nat) : List Char :=
  if n = 0 then ['0'] else decReprAux n []

/-- `str(n)` as a `String`. -/
def decStr (n : Nat) : String := ⟨decRepr n⟩

/-- Numeric value of a digit character. -/
def digitVal (c : Char) : Nat := c.toNat - 48

/-- Value denoted by a most-significant-first digit string. -/
def valOfDigits (l : List Char) : Nat :=
  l.foldl (fun a c => 10 * a + digitVal c) 0

/-! Run identifiers.  Each request generates `str(uuid.uuid4())`: a
36-character string over lowercase hexadecimal digits and hyphens,
containing at least one hyphen.  Only these properties of the
identifier format are needed. -/

/-- Characters that can appear in `str(uuid.uuid4())`. -/
def uuidChar (c : Char) : Bool :=
  (decide ('0' ≤ c) && decide (c ≤ '9')) ||
  (decide ('a' ≤ c) && decide (c ≤ 'f')) || decide (c = '-')

/-- Properties shared by every standard UUID string. -/
def isUuidLike (s : String) : Bool :=
  decide (s.data.length = 36) && s.data.all uuidChar &&
  s.data.any (fun c => decide (c = '-'))

/-! Translation of `app/routes.py` helpers: file names and the filename
sanitizer. -/

/-- `FILES_DIR` from `app/routes.py`. -/
def FILES_DIR : String := "files"

/-- `os.path.join(FILES_DIR, f"{podcast_id}_chunk_{i}.mp3")`. -/
def chunkPath (podcast_id : String) (i : Nat) : String :=
  FILES_DIR ++ "/" ++ podcast_id ++ "_chunk_" ++ decStr i ++ ".mp3"

/-- `f"{sanitized_title}_{podcast_id}.mp3"`. -/
def finalFilename (sanitized_title podcast_id : String) : String :=
  sanitized_title ++ "_" ++ podcast_id ++ ".mp3"

/-- `os.path.join(FILES_DIR, final_audio_filename)`. -/
def finalPath (sanitized_title podcast_id : String) : String :=
  FILES_DIR ++ "/" ++ finalFilename sanitized_title podcast_id

/-- Whitespace stripped by Python `str.strip()` (ASCII fragment). -/
def pyIsSpace (c : Char) : Bool :=
  decide (c = ' ') || decide (c = '\t') || decide (c = '\n') ||
  decide (c = '\r') || decide (c = '\x0b') || decide (c = '\x0c')

/-- `title.strip()` on the character list. -/
def pyStrip (l : List Char) : List Char :=
  ((l.dropWhile pyIsSpace).reverse.dropWhile pyIsSpace).reverse

/-- A regex `\w` word character (ASCII fragment of the unicode class used
by `re.sub(r'(?u)[^\w\-\_]', '', s)`). -/
def pyWordChar (c : Char) : Bool :=
  c.isAlphanum || decide (c = '_')

/-- `sanitize_filename` from `app/routes.py`: strip surrounding
whitespace, replace spaces by underscores, drop every character that is
not a word character or hyphen, truncate to 200 characters. -/
def sanitize_filename (title : String) : String :=
  let s1 := (pyStrip title.data).map (fun c => if c = ' ' then '_' else c)
  let s2 := s1.filter (fun c => pyWordChar c || decide (c = '-'))
  ⟨s2.take 200⟩

/-! Translation of `app/services/elevenlabs.py`.  The network exchange
with the text-to-speech endpoint is an oracle value: either the
`requests.post` call raises (`netFail`), or a response arrives with a
status code and a binary body.  `raise_for_status` raises exactly for
status codes in `[400, 600)`. -/

/-- Outcome of one text-to-speech HTTP exchange. -/
inductive TtsOutcome
  | netFail (msg : String)
  | resp (status : Nat) (body : Audio)
deriving DecidableEq

/-- `generate_audio_for_line` from `app/services/elevenlabs.py`.  The
`line` and `voice_id` arguments only shape the remote request, whose
result is the `outcome` oracle; the state pair returns the filesystem
(unchanged on every error path, since the write happens after
`raise_for_status`). -/
def generate_audio_for_line (api_key : Option String) (outcome : TtsOutcome)
    (line voice_id output_path : String) (fs : FS) : FS × Except Err Unit :=
  if strFalsy api_key then
    (fs, .error (.config "ELEVENLABS_API_KEY is not set."))
  else
    match outcome with
    | .netFail msg =>
      (fs, .error (.upstream ("Error calling ElevenLabs API: " ++ msg)))
    | .resp status body =>
      if 400 ≤ status ∧ status < 600 then
        (fs, .error (.upstream "Error calling ElevenLabs API: HTTPError"))
      else
        (fsWrite fs output_path body, .ok ())

/-! Translation of `app/services/audio.py`. -/

/-- Content accumulated by the loop of `combine_audio_files`: existing
files are decoded and appended in input order, missing paths are skipped
with only a logged warning. -/
def combineContent (fs : FS) (file_paths : List String) : Audio :=
  file_paths.foldl
    (fun acc p =>
      match fsGet fs p with
      | some bytes => acc ++ bytes
      | none => acc)
    []

/-- `combine_audio_files` from `app/services/audio.py`: accumulate the
existing chunks in order and export the result at `output_path`. -/
def combine_audio_files (fs : FS) (file_paths : List String)
    (output_path : String) : FS :=
  fsWrite fs output_path (combineContent fs file_paths)

/-- `cleanup_files` from `app/services/audio.py`: best-effort deletion of
each listed path. -/
def cleanup_files (fs : FS) (file_paths : List String) : FS :=
  file_paths.foldl fsRemove fs

/-! Translation of `app/services/gemini.py`.  JSON values are modelled
structurally; the text extracted from the reply envelope is given as a
parse outcome (`none` models a `json.JSONDecodeError`). -/

inductive Json where
  | null
  | bool (b : Bool)
  | num (n : Int)
  | str (s : String)
  | arr (items : List Json)
  | obj (fields : List (String × Json))

/-- Python dict lookup on the parsed JSON object (`json.loads` keeps the
last occurrence of a duplicated key). -/
def jGet (fields : List (String × Json)) (key : String) : Option Json :=
  fields.foldl (fun acc f => if f.1 = key then some f.2 else acc) none

/-- Outcome of the script-generation HTTP exchange. -/
inductive GeminiOutcome
  | netFail (msg : String)
  | resp (status : Nat) (parsedText : Option Json)

/-- `generate_script` from `app/services/gemini.py`: missing credential
raises the configuration error; a `requests` failure or a 4xx/5xx status
raises the upstream error; an unparseable reply, a non-dict reply, or a
dict lacking `title` or `script` raises the format error; otherwise the
parsed dict is returned verbatim. -/
def generate_script (api_key : Option String) (outcome : GeminiOutcome) :
    Except Err (List (String × Json)) :=
  if strFalsy api_key then .error (.config "GEMINI_API_KEY is not set.")
  else
    match outcome with
    | .netFail msg =>
      .error (.upstream ("Error calling Gemini API: " ++ msg))
    | .resp status parsedText =>
      if 400 ≤ status ∧ status < 600 then
        .error (.upstream "Error calling Gemini API: HTTPError")
      else
        match parsedText with
        | none =>
          .error (.format "Error processing Gemini response: JSONDecodeError")
        | some (.obj fields) =>
          if (jGet fields "title").isSome && (jGet fields "script").isSome then
            .ok fields
          else
            .error (.format "La respuesta de Gemini no tiene el formato esperado")
        | some _ =>
          .error (.format "La respuesta de Gemini no tiene el formato esperado")

/-! Translation of the request/response data model of `app/routes.py`. -/

/-- `ScriptLine` pydantic model: both fields are required strings. -/
structure ScriptLine where
  speaker : String
  line : String
deriving DecidableEq

/-- `Presenter` pydantic model: name plus ElevenLabs voice id. -/
structure Presenter where
  name : String
  voice_id : String
deriving DecidableEq

/-- `{p.name: p.voice_id for p in presenters}.get(speaker_name)`: a later
presenter with the same name overwrites an earlier one. -/
def voiceMapGet (presenters : List Presenter) (speaker_name : String) :
    Option String :=
  presenters.foldl
    (fun acc p => if p.name = speaker_name then some p.voice_id else acc) none

/-- `AudioResponse` pydantic model. -/
structure AudioResponse where
  status : String
  audio_file_url : Option String := none
  audio_base64 : Option String := none
deriving DecidableEq

/-- `PodcastResponse` pydantic model. -/
structure PodcastResponse where
  title : String
  status : String
  script : Json
  audio_file_url : Option String := none
  audio_base64 : Option String := none

/-! Standard base64 of a byte sequence (`base64.b64encode`). -/

/-- Character of the base64 alphabet at index `n`. -/
def b64Char (n : Nat) : Char :=
  "ABCDEFGHIJKLMNOPQRSTUVWXYZabcdefghijklmnopqrstuvwxyz0123456789+/".data.getD n 'A'

/-- Base64 groups of three bytes into four characters, with padding. -/
def b64Groups : List Nat → List Char
  | [] => []
  | [b1] => [b64Char (b1 / 4 % 64), b64Char (b1 % 4 * 16), '=', '=']
  | [b1, b2] =>
    [b64Char (b1 / 4 % 64), b64Char ((b1 % 4 * 16 + b2 / 16) % 64),
     b64Char (b2 % 16 * 4), '=']
  | b1 :: b2 :: b3 :: rest =>
    b64Char (b1 / 4 % 64) :: b64Char ((b1 % 4 * 16 + b2 / 16) % 64) ::
    b64Char ((b2 % 16 * 4 + b3 / 64) % 64) :: b64Char (b3 % 64) ::
    b64Groups rest

/-- `base64.b64encode(content).decode('utf-8')`. -/
def base64Encode (a : Audio) : String := ⟨b64Groups a⟩

/-! The per-line synthesis loop of `generate_audio_from_script`
(`app/routes.py`, lines 120-131), over the enumerated script.  A line
whose speaker resolves to a falsy voice id (`if not voice_id:`) is
skipped with only a printed warning; otherwise the chunk is synthesized
and its path collected.  An exception from the synthesis client aborts
the loop, keeping the files written so far. -/
def synthLoop (api_key : Option String) (tts : Nat → TtsOutcome)
    (presenters : List Presenter) (podcast_id : String) :
    List (Nat × ScriptLine) → FS → FS × Except Err (List String)
  | [], fs => (fs, .ok [])
  | (i, ln) :: rest, fs =>
    if strFalsy (voiceMapGet presenters ln.speaker) then
      synthLoop api_key tts presenters podcast_id rest fs
    else
      match generate_audio_for_line api_key (tts i) ln.line
          ((voiceMapGet presenters ln.speaker).getD "")
          (chunkPath podcast_id i) fs with
      | (fs1, .error e) => (fs1, .error e)
      | (fs1, .ok _) =>
        match synthLoop api_key tts presenters podcast_id rest fs1 with
        | (fs2, .ok paths) => (fs2, .ok (chunkPath podcast_id i :: paths))
        | (fs2, .error e) => (fs2, .error e)

/-- `generate_audio_from_script` endpoint (`app/routes.py`, lines
109-153): run the synthesis loop over the enumerated script, combine the
collected chunks, delete them, then either inline-encode (and delete)
the final file or return its static URL.  The `tts` oracle gives the
outcome of the synthesis exchange for each line index; `podcast_id`
stands for the generated `str(uuid.uuid4())`. -/
def generate_audio_from_script (api_key : Option String)
    (tts : Nat → TtsOutcome) (title : String) (script : List ScriptLine)
    (presenters : List Presenter) (return_base64 : Bool)
    (podcast_id base_url : String) (fs : FS) : FS × Except Err AudioResponse :=
  match synthLoop api_key tts presenters podcast_id script.enum fs with
  | (fs1, .error e) => (fs1, .error e)
  | (fs1, .ok audio_chunks_paths) =>
    let sanitized_title := sanitize_filename title
    let final_audio_filename := finalFilename sanitized_title podcast_id
    let final_audio_path := FILES_DIR ++ "/" ++ final_audio_filename
    let fs2 := combine_audio_files fs1 audio_chunks_paths final_audio_path
    let fs3 := cleanup_files fs2 audio_chunks_paths
    if return_base64 then
      match fsGet fs3 final_audio_path with
      | none =>
        (fs3, .error (.generic "An unexpected error occurred: FileNotFoundError"))
      | some content =>
        (cleanup_files fs3 [final_audio_path],
         .ok { status := "success",
               audio_base64 := some (base64Encode content) })
    else
      (fs3, .ok { status := "success",
                  audio_file_url :=
                    some (base_url ++ "files/" ++ final_audio_filename) })

/-! The full pipeline endpoint `generate_podcast` works on the raw
parsed JSON of the Gemini reply, so its per-line loop first applies
Python truthiness checks to `line.get("speaker")` and
`line.get("line")`. -/

/-- Python falsiness of a JSON value. -/
def jsonFalsy : Json → Bool
  | .null => true
  | .bool b => !b
  | .num n => decide (n = 0)
  | .str s => decide (s = "")
  | .arr items => items.isEmpty
  | .obj fields => fields.isEmpty

/-- Python falsiness of `line.get(key)` (missing key gives `None`). -/
def optJsonFalsy : Option Json → Bool
  | none => true
  | some j => jsonFalsy j

/-- Text payload forwarded to the synthesis client for a dialogue value.
String values are forwarded as-is; any other (truthy) value is placed in
the request body opaquely, and the oracle `tts` alone determines the
exchange's outcome, so its rendering is irrelevant to the model. -/
def dialogueText : Json → String
  | .str s => s
  | _ => ""

/-- The items Python iterates when the `script` value is enumerated:
lists yield their items, strings their one-character substrings, dicts
their keys; other values raise `TypeError` (uncaught, a generic 500). -/
def scriptItems : Json → Except Err (List Json)
  | .arr items => .ok items
  | .str s => .ok (s.data.map (fun c => Json.str ⟨[c]⟩))
  | .obj fields => .ok (fields.map (fun f => Json.str f.1))
  | _ => .error (.generic "An unexpected error occurred: TypeError")

/-- Per-line loop of `generate_podcast` (`app/routes.py`, lines
178-192): a line with falsy speaker or dialogue is skipped before the
voice lookup; a falsy voice lookup is skipped with a warning; a non-dict
line raises `AttributeError` (uncaught, a generic 500); a non-string
truthy speaker is never a key of the voice map, so it is skipped. -/
def podcastLoop (api_key : Option String) (tts : Nat → TtsOutcome)
    (presenters : List Presenter) (podcast_id : String) :
    List (Nat × Json) → FS → FS × Except Err (List String)
  | [], fs => (fs, .ok [])
  | (i, item) :: rest, fs =>
    match item with
    | .obj fields =>
      if optJsonFalsy (jGet fields "speaker") || optJsonFalsy (jGet fields "line") then
        podcastLoop api_key tts presenters podcast_id rest fs
      else
        match jGet fields "speaker" with
        | some (.str s) =>
          if strFalsy (voiceMapGet presenters s) then
            podcastLoop api_key tts presenters podcast_id rest fs
          else
            match generate_audio_for_line api_key (tts i)
                (dialogueText ((jGet fields "line").getD .null))
                ((voiceMapGet presenters s).getD "")
                (chunkPath podcast_id i) fs with
            | (fs1, .error e) => (fs1, .error e)
            | (fs1, .ok _) =>
              match podcastLoop api_key tts presenters podcast_id rest fs1 with
              | (fs2, .ok paths) => (fs2, .ok (chunkPath podcast_id i :: paths))
              | (fs2, .error e) => (fs2, .error e)
        | _ => podcastLoop api_key tts presenters podcast_id rest fs
    | _ => (fs, .error (.generic "An unexpected error occurred: AttributeError"))

/-- `generate_podcast` endpoint (`app/routes.py`, lines 159-222): run
the script generator, then the per-line loop over the enumerated
`script` value, then assemble exactly as the audio-from-script endpoint,
additionally echoing the title and the raw script in the response.  A
non-string title makes `sanitize_filename` raise `AttributeError`
(uncaught, a generic 500) after the loop. -/
def generate_podcast (gemini_key elevenlabs_key : Option String)
    (gemini_outcome : GeminiOutcome) (tts : Nat → TtsOutcome)
    (presenters : List Presenter) (return_base64 : Bool)
    (podcast_id base_url : String) (fs : FS) : FS × Except Err PodcastResponse :=
  match generate_script gemini_key gemini_outcome with
  | .error e => (fs, .error e)
  | .ok fields =>
    let titleJ := (jGet fields "title").getD .null
    let scriptJ := (jGet fields "script").getD .null
    match scriptItems scriptJ with
    | .error e => (fs, .error e)
    | .ok items =>
      match podcastLoop elevenlabs_key tts presenters podcast_id
          items.enum fs with
      | (fs1, .error e) => (fs1, .error e)
      | (fs1, .ok audio_chunks_paths) =>
        match titleJ with
        | .str title =>
          let sanitized_title := sanitize_filename title
          let final_audio_filename := finalFilename sanitized_title podcast_id
          let final_audio_path := FILES_DIR ++ "/" ++ final_audio_filename
          let fs2 := combine_audio_files fs1 audio_chunks_paths final_audio_path
          let fs3 := cleanup_files fs2 audio_chunks_paths
          if return_base64 then
            match fsGet fs3 final_audio_path with
            | none =>
              (fs3, .error (.generic "An unexpected error occurred: FileNotFoundError"))
            | some content =>
              (cleanup_files fs3 [final_audio_path],
               .ok { title := title, status := "success", script := scriptJ,
                     audio_base64 := some (base64Encode content) })
          else
            (fs3, .ok { title := title, status := "success", script := scriptJ,
                        audio_file_url :=
                          some (base_url ++ "files/" ++ final_audio_filename) })
        | _ => (fs1, .error (.generic "An unexpected error occurred: AttributeError"))

/-! Helper notions used only to state and prove the theorems below. -/

/-- Indices of the enumerated script lines that pass the voice lookup
(`if not voice_id:` is false), i.e. the lines a loop synthesizes. -/
def processedIdx (presenters : List Presenter)
    (l : List (Nat × ScriptLine)) : List Nat :=
  (l.filter (fun p => !strFalsy (voiceMapGet presenters p.2.speaker))).map
    Prod.fst

/-- Filesystem after writing the chunk of each listed index. -/
def writeChunks (podcast_id : String) (bodyOf : Nat → Audio) (fs : FS)
    (idx : List Nat) : FS :=
  idx.foldl (fun f i => fsWrite f (chunkPath podcast_id i) (bodyOf i)) fs

/-! Theorems.  First the generic lemmas about the model's primitive
operations, then one theorem (plus witness or counterexample) per
specification claim. -/

theorem decReprAux_zero (acc : List Char) : decReprAux 0 acc = acc := by
  rw [decReprAux]
  simp

theorem decReprAux_pos {n : Nat} (h : n ≠ 0) (acc : List Char) :
    decReprAux n acc = decReprAux (n / 10) (Nat.digitChar (n % 10) :: acc) := by
  conv_lhs => rw [decReprAux]
  rw [dif_neg h]

theorem decReprAux_eq_append (n : Nat) :
    ∀ acc : List Char, decReprAux n acc = decReprAux n [] ++ acc := by
  induction n using Nat.strong_induction_on with
  | _ n ih =>
    intro acc
    by_cases h : n = 0
    · subst h
      rw [decReprAux_zero, decReprAux_zero]
      simp
    · rw [decReprAux_pos h, decReprAux_pos h,
        ih (n / 10) (Nat.div_lt_self (Nat.pos_of_ne_zero h) (by decide)),
        ih (n / 10) (Nat.div_lt_self (Nat.pos_of_ne_zero h) (by decide))
          (Nat.digitChar (n % 10) :: [])]
      simp

theorem valOfDigits_append_singleton (l : List Char) (c : Char) :
    valOfDigits (l ++ [c]) = 10 * valOfDigits l + digitVal c := by
  simp [valOfDigits, List.foldl_append]

theorem digitVal_digitChar : ∀ k, k < 10 → digitVal (Nat.digitChar k) = k := by
  decide

theorem valOfDigits_decReprAux (n : Nat) :
    valOfDigits (decReprAux n []) = n := by
  induction n using Nat.strong_induction_on with
  | _ n ih =>
    by_cases h : n = 0
    · subst h
      rw [decReprAux_zero]
      simp [valOfDigits]
    · rw [decReprAux_pos h,
        decReprAux_eq_append (n / 10) (Nat.digitChar (n % 10) :: [])]
      rw [show (Nat.digitChar (n % 10) :: []) = [Nat.digitChar (n % 10)] from rfl,
        valOfDigits_append_singleton,
        ih (n / 10) (Nat.div_lt_self (Nat.pos_of_ne_zero h) (by decide)),
        digitVal_digitChar (n % 10) (Nat.mod_lt n (by decide))]
      exact Nat.div_add_mod n 10

theorem valOfDigits_decRepr (n : Nat) : valOfDigits (decRepr n) = n := by
  by_cases h : n = 0
  · subst h; rw [decRepr]; simp [valOfDigits, digitVal]
  · rw [decRepr, if_neg h]; exact valOfDigits_decReprAux n

theorem decRepr_injective : Function.Injective decRepr := by
  intro a b h
  rw [← valOfDigits_decRepr a, ← valOfDigits_decRepr b, h]

theorem digitChar_range : ∀ k, k < 10 →
    '0' ≤ Nat.digitChar k ∧ Nat.digitChar k ≤ '9' := by
  decide

theorem decReprAux_digits (n : Nat) :
    ∀ acc : List Char, (∀ c ∈ acc, '0' ≤ c ∧ c ≤ '9') →
      ∀ c ∈ decReprAux n acc, '0' ≤ c ∧ c ≤ '9' := by
  induction n using Nat.strong_induction_on with
  | _ n ih =>
    intro acc hacc c hc
    by_cases h : n = 0
    · subst h; rw [decReprAux_zero] at hc; exact hacc c hc
    · rw [decReprAux_pos h] at hc
      refine ih (n / 10) (Nat.div_lt_self (Nat.pos_of_ne_zero h) (by decide))
        (Nat.digitChar (n % 10) :: acc) ?_ c hc
      intro d hd
      rcases List.mem_cons.mp hd with h1 | h2
      · subst h1; exact digitChar_range (n % 10) (Nat.mod_lt n (by decide))
      · exact hacc d h2

theorem decRepr_digits (n : Nat) : ∀ c ∈ decRepr n, '0' ≤ c ∧ c ≤ '9' := by
  by_cases h : n = 0
  · subst h; rw [decRepr]; intro c hc; simp at hc; subst hc; decide
  · rw [decRepr, if_neg h]
    exact decReprAux_digits n [] (by intro c hc; simp at hc)

theorem isUuidLike_length {s : String} (h : isUuidLike s = true) :
    s.data.length = 36 := by
  simp [isUuidLike] at h; exact h.1.1

theorem isUuidLike_chars {s : String} (h : isUuidLike s = true) :
    ∀ c ∈ s.data, uuidChar c = true := by
  simp only [isUuidLike, Bool.and_eq_true, List.all_eq_true] at h
  exact h.1.2

theorem isUuidLike_dash {s : String} (h : isUuidLike s = true) :
    '-' ∈ s.data := by
  simp only [isUuidLike, Bool.and_eq_true, List.any_eq_true,
    decide_eq_true_eq] at h
  obtain ⟨c, hc, rfl⟩ := h.2
  exact hc


theorem fsRemove_cons (e : String × Audio) (fs : FS) (p : String) :
    fsRemove (e :: fs) p =
      if e.1 = p then fsRemove fs p else e :: fsRemove fs p := by
  by_cases h : e.1 = p <;> simp [fsRemove, List.filter_cons, h]

theorem fsGet_fsRemove (fs : FS) (p q : String) :
    fsGet (fsRemove fs p) q = if p = q then none else fsGet fs q := by
  induction fs with
  | nil => simp [fsRemove, fsGet]
  | cons e rest ih =>
    obtain ⟨r, a⟩ := e
    rw [fsRemove_cons]
    by_cases hrp : r = p
    · subst hrp
      rw [if_pos rfl, ih]
      by_cases hpq : r = q
      · simp [hpq]
      · simp [fsGet, hpq]
    · rw [if_neg hrp]
      by_cases hrq : r = q
      · subst hrq
        have hpq : ¬ p = r := fun h => hrp h.symm
        simp [fsGet, hpq]
      · simp [fsGet, hrq, ih]

theorem fsGet_fsWrite (fs : FS) (p q : String) (a : Audio) :
    fsGet (fsWrite fs p a) q = if p = q then some a else fsGet fs q := by
  by_cases h : p = q
  · subst h; simp [fsWrite, fsGet]
  · simp only [fsWrite, fsGet, h, if_neg h]
    rw [fsGet_fsRemove, if_neg h]

theorem mem_of_mem_fsRemove {fs : FS} {p : String} {e : String × Audio}
    (h : e ∈ fsRemove fs p) : e ∈ fs :=
  List.mem_of_mem_filter h

theorem cleanup_files_eq_filter (paths : List String) :
    ∀ fs : FS, cleanup_files fs paths =
      fs.filter (fun e => decide (e.1 ∉ paths)) := by
  induction paths with
  | nil => intro fs; simp [cleanup_files]
  | cons p rest ih =>
    intro fs
    show cleanup_files (fsRemove fs p) rest = _
    rw [ih (fsRemove fs p)]
    simp only [fsRemove, List.filter_filter]
    apply List.filter_congr
    intro e he
    simp only [List.mem_cons, not_or]
    rw [Bool.and_comm]
    simp

theorem combineContent_aux (fs : FS) (paths : List String) :
    ∀ acc : Audio,
      paths.foldl
        (fun acc p =>
          match fsGet fs p with
          | some bytes => acc ++ bytes
          | none => acc) acc =
      acc ++ (paths.filterMap (fsGet fs)).flatten := by
  induction paths with
  | nil => intro acc; simp
  | cons p rest ih =>
    intro acc
    simp only [List.foldl_cons, List.filterMap_cons]
    cases h : fsGet fs p with
    | none => simp [ih]
    | some bytes => simp [ih, List.append_assoc]

theorem combineContent_eq_join (fs : FS) (paths : List String) :
    combineContent fs paths = (paths.filterMap (fsGet fs)).flatten := by
  simpa using combineContent_aux fs paths []

/-- Characters surviving the sanitizer's regex: word characters or
hyphens. -/
theorem sanitize_filename_chars (s : String) :
    ∀ c ∈ (sanitize_filename s).data, (pyWordChar c || decide (c = '-')) = true := by
  intro c hc
  have hc2 : c ∈ (((pyStrip s.data).map
      (fun c => if c = ' ' then '_' else c)).filter
      (fun c => pyWordChar c || decide (c = '-'))) :=
    List.mem_of_mem_take hc
  exact (List.mem_filter.mp hc2).2

theorem sanitize_filename_length (s : String) :
    (sanitize_filename s).length ≤ 200 := by
  have : (sanitize_filename s).length =
      ((((pyStrip s.data).map (fun c => if c = ' ' then '_' else c)).filter
        (fun c => pyWordChar c || decide (c = '-'))).take 200).length := rfl
  rw [this, List.length_take]
  exact min_le_left _ _

theorem pyStrip_leading (l : List Char) : pyStrip (' ' :: l) = pyStrip l := by
  simp [pyStrip, List.dropWhile_cons, pyIsSpace]

theorem pyStrip_trailing (l : List Char) : pyStrip (l ++ [' ']) = pyStrip l := by
  unfold pyStrip
  rw [List.dropWhile_append]
  by_cases h : (l.dropWhile pyIsSpace).isEmpty
  · rw [if_pos h]
    rw [List.isEmpty_iff] at h
    rw [h]
    simp [List.dropWhile_cons, pyIsSpace]
  · rw [if_neg h]
    rw [List.reverse_append]
    simp only [List.reverse_cons, List.reverse_nil, List.nil_append,
      List.singleton_append, List.dropWhile_cons]
    simp [pyIsSpace]

/-- C3: the filename sanitizer always returns a string over word
characters and hyphens of length at most 200, with surrounding
whitespace stripped; on the spec's example it gives exactly
`"My_Podcast_1"`, and the empty string is a legal output. -/
theorem sanitize_filename_spec :
    (∀ s : String, ∀ c ∈ (sanitize_filename s).data,
        (pyWordChar c || decide (c = '-')) = true)
    ∧ (∀ s : String, (sanitize_filename s).length ≤ 200)
    ∧ (∀ s : String, sanitize_filename (" " ++ s) = sanitize_filename s)
    ∧ (∀ s : String, sanitize_filename (s ++ " ") = sanitize_filename s)
    ∧ sanitize_filename "My Podcast! #1" = "My_Podcast_1"
    ∧ sanitize_filename "" = "" := by
  refine ⟨sanitize_filename_chars, sanitize_filename_length, ?_, ?_, by decide, by decide⟩
  · intro s
    have h : (" " ++ s).data = ' ' :: s.data := rfl
    simp only [sanitize_filename, h, pyStrip_leading]
  · intro s
    have h : (s ++ " ").data = s.data ++ [' '] := rfl
    simp only [sanitize_filename, h, pyStrip_trailing]

/-- C5: with no API credential configured, the script generator and the
speech synthesis client both fail with the configuration error before
the remote exchange can influence anything: the result is the same for
every possible exchange outcome, and the filesystem is untouched. -/
theorem missing_credential_config_error :
    (∀ outcome : GeminiOutcome,
        generate_script none outcome =
          .error (.config "GEMINI_API_KEY is not set."))
    ∧ (∀ (outcome : TtsOutcome) (line voice_id output_path : String) (fs : FS),
        generate_audio_for_line none outcome line voice_id output_path fs =
          (fs, .error (.config "ELEVENLABS_API_KEY is not set."))) := by
  exact ⟨fun _ => rfl, fun _ _ _ _ _ => rfl⟩

/-- C6: the assembler writes at the output path the concatenation, in
input order, of exactly the contents of the paths that exist, skipping
missing paths without any error; in particular combining
`[a.mp3, b.mp3]` when only `a.mp3` exists yields `a.mp3`'s content
alone. -/
theorem combine_skips_missing_files :
    (∀ (fs : FS) (paths : List String) (out : String),
        fsGet (combine_audio_files fs paths out) out =
          some (combineContent fs paths))
    ∧ (∀ (fs : FS) (paths : List String),
        combineContent fs paths = (paths.filterMap (fsGet fs)).flatten)
    ∧ combineContent [("files/a.mp3", [1, 2, 3])]
        ["files/a.mp3", "files/b.mp3"] = [1, 2, 3]
    ∧ fsGet (combine_audio_files [("files/a.mp3", [1, 2, 3])]
        ["files/a.mp3", "files/b.mp3"] "files/out.mp3") "files/out.mp3" =
        some [1, 2, 3] := by
  refine ⟨?_, combineContent_eq_join, by decide, by decide⟩
  intro fs paths out
  rw [combine_audio_files, fsGet_fsWrite, if_pos rfl]

/-- C4: with a configured credential, the script generator raises the
format error when the reply is a JSON object lacking the `script` key,
or lacking the `title` key, or is not parseable JSON at all; it raises
the upstream error when the remote service answers with a non-success
(4xx/5xx) HTTP status.  In each of these cases it returns an error, so
no `{title, script}` value is produced. -/
theorem generate_script_error_taxonomy :
    (∀ (k : Option String) (st : Nat) (fields : List (String × Json)),
        strFalsy k = false → st < 400 → jGet fields "script" = none →
        generate_script k (.resp st (some (.obj fields))) =
          .error (.format "La respuesta de Gemini no tiene el formato esperado"))
    ∧ (∀ (k : Option String) (st : Nat) (fields : List (String × Json)),
        strFalsy k = false → st < 400 → jGet fields "title" = none →
        generate_script k (.resp st (some (.obj fields))) =
          .error (.format "La respuesta de Gemini no tiene el formato esperado"))
    ∧ (∀ (k : Option String) (st : Nat),
        strFalsy k = false → st < 400 →
        generate_script k (.resp st none) =
          .error (.format "Error processing Gemini response: JSONDecodeError"))
    ∧ (∀ (k : Option String) (st : Nat) (parsed : Option Json),
        strFalsy k = false → 400 ≤ st → st < 600 →
        generate_script k (.resp st parsed) =
          .error (.upstream "Error calling Gemini API: HTTPError")) := by
  refine ⟨?_, ?_, ?_, ?_⟩
  · intro k st fields hk hst hscript
    simp [generate_script, hk, hscript, Nat.not_le.mpr hst]
  · intro k st fields hk hst htitle
    simp [generate_script, hk, htitle, Nat.not_le.mpr hst]
  · intro k st hk hst
    simp [generate_script, hk, Nat.not_le.mpr hst]
  · intro k st parsed hk h1 h2
    simp [generate_script, hk, h1, h2]

/-- Witness for C4 at concrete inputs. -/
theorem generate_script_error_taxonomy_instance :
    (strFalsy (some "key") = false ∧ (200 : Nat) < 400
      ∧ jGet [("title", Json.str "t")] "script" = none
      ∧ jGet [("script", Json.arr [])] "title" = none
      ∧ (400 : Nat) ≤ 500 ∧ (500 : Nat) < 600)
    ∧ generate_script (some "key") (.resp 200 (some (.obj [("title", Json.str "t")]))) =
        .error (.format "La respuesta de Gemini no tiene el formato esperado")
    ∧ generate_script (some "key") (.resp 200 (some (.obj [("script", Json.arr [])]))) =
        .error (.format "La respuesta de Gemini no tiene el formato esperado")
    ∧ generate_script (some "key") (.resp 200 none) =
        .error (.format "Error processing Gemini response: JSONDecodeError")
    ∧ generate_script (some "key") (.resp 500 none) =
        .error (.upstream "Error calling Gemini API: HTTPError") := by
  refine ⟨⟨rfl, by decide, rfl, rfl, by decide, by decide⟩, ?_, ?_, ?_, ?_⟩
  · exact generate_script_error_taxonomy.1 (some "key") 200
      [("title", Json.str "t")] rfl (by decide) rfl
  · exact generate_script_error_taxonomy.2.1 (some "key") 200
      [("script", Json.arr [])] rfl (by decide) rfl
  · exact generate_script_error_taxonomy.2.2.1 (some "key") 200 rfl (by decide)
  · exact generate_script_error_taxonomy.2.2.2 (some "key") 500 none rfl
      (by decide) (by decide)

theorem data_mk (l : List Char) : (String.mk l).data = l := rfl

theorem string_data_inj {a b : String} (h : a.data = b.data) : a = b := by
  cases a
  cases b
  rw [data_mk, data_mk] at h
  rw [h]

theorem take_len_of_append_eq {n : Nat} {u1 u2 r1 r2 : List Char}
    (h1 : u1.length = n) (h2 : u2.length = n)
    (h : u1 ++ r1 = u2 ++ r2) : u1 = u2 := by
  have ht := congrArg (List.take n) h
  rwa [List.take_left' h1, List.take_left' h2] at ht

/-- Core disjointness: a string of the shape prefix, "_chunk_", decimal
digits can never equal one of the shape prefix, underscore, UUID-like
identifier, because in the first shape the 36 characters before the end
either are all digits (so contain no hyphen) or contain the underscore
preceding the digits (which no UUID contains). -/
theorem chunk_final_core (u1 u2 S D : List Char)
    (hu2len : u2.length = 36)
    (hu2chars : ∀ c ∈ u2, uuidChar c = true)
    (hu2dash : '-' ∈ u2)
    (hD : ∀ c ∈ D, '0' ≤ c ∧ c ≤ '9') :
    u1 ++ ['_', 'c', 'h', 'u', 'n', 'k', '_'] ++ D ≠ S ++ '_' :: u2 := by
  intro h
  have hrev : D.reverse ++ ('_' :: (['k', 'n', 'u', 'h', 'c', '_'] ++ u1.reverse)) =
      u2.reverse ++ ('_' :: S.reverse) := by
    have := congrArg List.reverse h
    simpa [List.append_assoc] using this
  have ht := congrArg (List.take 36) hrev
  rw [List.take_left' (by simp [hu2len] : u2.reverse.length = 36),
    List.take_append_eq_append_take] at ht
  by_cases hd : 36 ≤ D.length
  · have hzero : 36 - D.reverse.length = 0 := by
      simp only [List.length_reverse]
      omega
    rw [hzero, List.take_zero, List.append_nil] at ht
    have hmem : '-' ∈ D.reverse.take 36 := by
      rw [ht]
      exact List.mem_reverse.mpr hu2dash
    have hmem2 : '-' ∈ D := List.mem_reverse.mp (List.mem_of_mem_take hmem)
    have := (hD '-' hmem2).1
    exact absurd this (by decide)
  · have hsucc : 36 - D.reverse.length = (35 - D.reverse.length) + 1 := by
      simp only [List.length_reverse]
      omega
    rw [hsucc, List.take_succ_cons] at ht
    have hmem : '_' ∈ u2.reverse := by
      rw [← ht]
      exact List.mem_append_right _ (List.mem_cons_self _ _)
    have := hu2chars '_' (List.mem_reverse.mp hmem)
    exact absurd this (by decide)

theorem chunkPath_data (pid : String) (i : Nat) :
    (chunkPath pid i).data =
      "files".data ++ ("/".data ++ (pid.data ++
        ("_chunk_".data ++ (decRepr i ++ ".mp3".data)))) := by
  simp [chunkPath, FILES_DIR, decStr, String.data_append, data_mk]

theorem finalPath_data (st pid : String) :
    (finalPath st pid).data =
      "files".data ++ ("/".data ++ (st.data ++
        ("_".data ++ (pid.data ++ ".mp3".data)))) := by
  simp [finalPath, finalFilename, FILES_DIR, String.data_append]

/-- A chunk path of any run never equals a final path whose run
identifier is UUID-like (in particular within a single run). -/
theorem chunkPath_ne_finalPath (pid1 pid2 st : String) (i : Nat)
    (h2 : isUuidLike pid2 = true) : chunkPath pid1 i ≠ finalPath st pid2 := by
  intro h
  have hd := congrArg String.data h
  rw [chunkPath_data, finalPath_data] at hd
  have hd1 := List.append_cancel_left hd
  have hd2 := List.append_cancel_left hd1
  have hd3 : (pid1.data ++ ("_chunk_".data ++ decRepr i)) ++ ".mp3".data =
      (st.data ++ ("_".data ++ pid2.data)) ++ ".mp3".data := by
    simpa [List.append_assoc] using hd2
  have hd4 := List.append_cancel_right hd3
  have hc : ("_chunk_" : String).data = ['_', 'c', 'h', 'u', 'n', 'k', '_'] := rfl
  have hu : ("_" : String).data = ['_'] := rfl
  rw [hc, hu, List.singleton_append, ← List.append_assoc] at hd4
  exact chunk_final_core pid1.data pid2.data st.data (decRepr i)
    (isUuidLike_length h2) (isUuidLike_chars h2) (isUuidLike_dash h2)
    (decRepr_digits i) hd4

/-- Chunk paths of two runs with distinct 36-character identifiers are
distinct, whatever the line indices. -/
theorem chunkPath_ne_chunkPath (pid1 pid2 : String) (i j : Nat)
    (h1 : pid1.data.length = 36) (h2 : pid2.data.length = 36)
    (hne : pid1 ≠ pid2) : chunkPath pid1 i ≠ chunkPath pid2 j := by
  intro h
  have hd := congrArg String.data h
  rw [chunkPath_data, chunkPath_data] at hd
  have hd1 := List.append_cancel_left hd
  have hd2 := List.append_cancel_left hd1
  exact hne (string_data_inj (take_len_of_append_eq h1 h2 hd2))

/-- Final paths of two runs with distinct 36-character identifiers are
distinct, whatever the sanitized titles. -/
theorem finalPath_ne_finalPath (pid1 pid2 st1 st2 : String)
    (h1 : pid1.data.length = 36) (h2 : pid2.data.length = 36)
    (hne : pid1 ≠ pid2) : finalPath st1 pid1 ≠ finalPath st2 pid2 := by
  intro h
  have hd := congrArg String.data h
  rw [finalPath_data, finalPath_data] at hd
  have hd1 := List.append_cancel_left hd
  have hd2 := List.append_cancel_left hd1
  have hd3 : ((st1.data ++ "_".data) ++ pid1.data) ++ ".mp3".data =
      ((st2.data ++ "_".data) ++ pid2.data) ++ ".mp3".data := by
    simpa [List.append_assoc] using hd2
  have hd4 := List.append_cancel_right hd3
  have hrev : pid1.data.reverse ++ ("_".data.reverse ++ st1.data.reverse) =
      pid2.data.reverse ++ ("_".data.reverse ++ st2.data.reverse) := by
    have := congrArg List.reverse hd4
    simpa [List.append_assoc] using this
  have hu := take_len_of_append_eq (n := 36)
    (by simp [h1]) (by simp [h2]) hrev
  have hdata : pid1.data = pid2.data := by
    have := congrArg List.reverse hu
    simpa using this
  exact hne (string_data_inj hdata)

/-- Within one run, distinct line indices give distinct chunk paths. -/
theorem chunkPath_inj (pid : String) {i j : Nat}
    (h : chunkPath pid i = chunkPath pid j) : i = j := by
  have hd := congrArg String.data h
  rw [chunkPath_data, chunkPath_data] at hd
  have hd1 := List.append_cancel_left hd
  have hd2 := List.append_cancel_left hd1
  have hd3 := List.append_cancel_left hd2
  have hd4 := List.append_cancel_left hd3
  exact decRepr_injective (List.append_cancel_right hd4)

/-- C8: two runs whose randomly generated identifiers are distinct
standard UUID strings create disjoint path sets: no chunk or final path
of one run equals any chunk or final path of the other, for any titles
and line indices. -/
theorem distinct_runs_disjoint_paths (pid1 pid2 st1 st2 : String) (i j : Nat)
    (h1 : isUuidLike pid1 = true) (h2 : isUuidLike pid2 = true)
    (hne : pid1 ≠ pid2) :
    chunkPath pid1 i ≠ chunkPath pid2 j
    ∧ chunkPath pid1 i ≠ finalPath st2 pid2
    ∧ finalPath st1 pid1 ≠ chunkPath pid2 j
    ∧ finalPath st1 pid1 ≠ finalPath st2 pid2 := by
  refine ⟨?_, ?_, ?_, ?_⟩
  · exact chunkPath_ne_chunkPath pid1 pid2 i j
      (isUuidLike_length h1) (isUuidLike_length h2) hne
  · exact chunkPath_ne_finalPath pid1 pid2 st2 i h2
  · exact fun h => chunkPath_ne_finalPath pid2 pid1 st1 j h1 h.symm
  · exact finalPath_ne_finalPath pid1 pid2 st1 st2
      (isUuidLike_length h1) (isUuidLike_length h2) hne

/-- Witness for C8 at two concrete UUID strings. -/
theorem distinct_runs_disjoint_paths_instance :
    (isUuidLike "123e4567-e89b-12d3-a456-426614174000" = true
      ∧ isUuidLike "7c9e6679-7425-40de-944b-e07fc1f90ae7" = true
      ∧ "123e4567-e89b-12d3-a456-426614174000" ≠
          "7c9e6679-7425-40de-944b-e07fc1f90ae7")
    ∧ chunkPath "123e4567-e89b-12d3-a456-426614174000" 0 ≠
        chunkPath "7c9e6679-7425-40de-944b-e07fc1f90ae7" 1
    ∧ chunkPath "123e4567-e89b-12d3-a456-426614174000" 0 ≠
        finalPath "My_Podcast" "7c9e6679-7425-40de-944b-e07fc1f90ae7"
    ∧ finalPath "Otro_Titulo" "123e4567-e89b-12d3-a456-426614174000" ≠
        chunkPath "7c9e6679-7425-40de-944b-e07fc1f90ae7" 1
    ∧ finalPath "Otro_Titulo" "123e4567-e89b-12d3-a456-426614174000" ≠
        finalPath "My_Podcast" "7c9e6679-7425-40de-944b-e07fc1f90ae7" := by
  have h := distinct_runs_disjoint_paths
    "123e4567-e89b-12d3-a456-426614174000"
    "7c9e6679-7425-40de-944b-e07fc1f90ae7"
    "Otro_Titulo" "My_Podcast" 0 1 (by decide) (by decide) (by decide)
  exact ⟨⟨by decide, by decide, by decide⟩, h.1, h.2.1, h.2.2.1, h.2.2.2⟩

theorem generate_audio_for_line_ok (api_key : Option String) (st : Nat)
    (body : Audio) (line voice_id output_path : String) (fs : FS)
    (hkey : strFalsy api_key = false) (hst : st < 400) :
    generate_audio_for_line api_key (.resp st body) line voice_id
      output_path fs = (fsWrite fs output_path body, .ok ()) := by
  simp [generate_audio_for_line, hkey, Nat.not_le.mpr hst]

/-- Characterization of the synthesis loop when the credential is set
and every exchange succeeds: it writes one chunk per line that passes
the voice lookup and collects exactly those chunk paths, in order. -/
theorem synthLoop_ok (api_key : Option String) (tts : Nat → TtsOutcome)
    (presenters : List Presenter) (podcast_id : String)
    (stOf : Nat → Nat) (bodyOf : Nat → Audio)
    (hkey : strFalsy api_key = false)
    (htts : ∀ i, tts i = TtsOutcome.resp (stOf i) (bodyOf i))
    (hst : ∀ i, stOf i < 400) :
    ∀ (l : List (Nat × ScriptLine)) (fs : FS),
      synthLoop api_key tts presenters podcast_id l fs =
        (writeChunks podcast_id bodyOf fs (processedIdx presenters l),
         .ok ((processedIdx presenters l).map (chunkPath podcast_id))) := by
  intro l
  induction l with
  | nil => intro fs; simp [synthLoop, processedIdx, writeChunks]
  | cons hd rest ih =>
    intro fs
    obtain ⟨i, ln⟩ := hd
    by_cases hv : strFalsy (voiceMapGet presenters ln.speaker)
    · have hp : processedIdx presenters ((i, ln) :: rest) =
          processedIdx presenters rest := by
        simp [processedIdx, List.filter_cons, hv]
      rw [show synthLoop api_key tts presenters podcast_id ((i, ln) :: rest) fs =
          synthLoop api_key tts presenters podcast_id rest fs from by
        simp [synthLoop, hv], hp, ih fs]
    · have hv' : strFalsy (voiceMapGet presenters ln.speaker) = false :=
        Bool.not_eq_true _ ▸ eq_false_of_ne_true hv
      have hp : processedIdx presenters ((i, ln) :: rest) =
          i :: processedIdx presenters rest := by
        simp [processedIdx, List.filter_cons, hv']
      have hstep : synthLoop api_key tts presenters podcast_id
          ((i, ln) :: rest) fs =
          match synthLoop api_key tts presenters podcast_id rest
              (fsWrite fs (chunkPath podcast_id i) (bodyOf i)) with
          | (fs2, .ok paths) => (fs2, .ok (chunkPath podcast_id i :: paths))
          | (fs2, .error e) => (fs2, .error e) := by
        rw [show synthLoop api_key tts presenters podcast_id ((i, ln) :: rest) fs =
            match generate_audio_for_line api_key (tts i) ln.line
                ((voiceMapGet presenters ln.speaker).getD "")
                (chunkPath podcast_id i) fs with
            | (fs1, .error e) => (fs1, .error e)
            | (fs1, .ok _) =>
              match synthLoop api_key tts presenters podcast_id rest fs1 with
              | (fs2, .ok paths) => (fs2, .ok (chunkPath podcast_id i :: paths))
              | (fs2, .error e) => (fs2, .error e) from by
          simp [synthLoop, hv']]
        rw [htts i, generate_audio_for_line_ok api_key (stOf i) (bodyOf i)
          _ _ _ fs hkey (hst i)]
      rw [hstep, ih (fsWrite fs (chunkPath podcast_id i) (bodyOf i)), hp]
      simp [writeChunks]

theorem mem_writeChunks (podcast_id : String) (bodyOf : Nat → Audio) :
    ∀ (idx : List Nat) (fs : FS) (e : String × Audio),
      e ∈ writeChunks podcast_id bodyOf fs idx →
      e ∈ fs ∨ e.1 ∈ idx.map (chunkPath podcast_id) := by
  intro idx
  induction idx with
  | nil => intro fs e he; exact Or.inl he
  | cons i rest ih =>
    intro fs e he
    rcases ih (fsWrite fs (chunkPath podcast_id i) (bodyOf i)) e he with h | h
    · rcases List.mem_cons.mp h with h1 | h1
      · right
        rw [h1]
        exact List.mem_map_of_mem _ (List.mem_cons_self _ _)
      · exact Or.inl (mem_of_mem_fsRemove h1)
    · right
      rw [List.map_cons]
      exact List.mem_cons_of_mem _ h

/-- Combining the collected chunks and then deleting them leaves exactly
the final file, provided every entry of the filesystem is one of the
chunks and the final path is not a chunk path. -/
theorem cleanup_combine (fs1 : FS) (C : List String) (fpath : String)
    (hmem : ∀ e ∈ fs1, e.1 ∈ C) (hfp : fpath ∉ C) :
    cleanup_files (combine_audio_files fs1 C fpath) C =
      [(fpath, combineContent fs1 C)] := by
  rw [combine_audio_files, fsWrite, cleanup_files_eq_filter, List.filter_cons]
  rw [if_pos (by simpa using hfp)]
  have : (fsRemove fs1 fpath).filter (fun e => decide (e.1 ∉ C)) = [] := by
    rw [List.filter_eq_nil_iff]
    intro e he
    simp only [decide_eq_true_eq, Decidable.not_not]
    exact hmem e (mem_of_mem_fsRemove he)
  rw [this]

/-- Full characterization of a successful audio-from-script run from an
empty output directory: the loop writes the processed chunks, the
assembler leaves exactly the final file, and the base64 variant deletes
it after encoding. -/
theorem generate_audio_from_script_run
    (api_key : Option String) (tts : Nat → TtsOutcome)
    (stOf : Nat → Nat) (bodyOf : Nat → Audio)
    (title : String) (script : List ScriptLine) (presenters : List Presenter)
    (return_base64 : Bool) (podcast_id base_url : String)
    (hkey : strFalsy api_key = false)
    (htts : ∀ i, tts i = TtsOutcome.resp (stOf i) (bodyOf i))
    (hst : ∀ i, stOf i < 400)
    (hpid : isUuidLike podcast_id = true) :
    generate_audio_from_script api_key tts title script presenters
        return_base64 podcast_id base_url [] =
      (let idx := processedIdx presenters script.enum
       let C := idx.map (chunkPath podcast_id)
       let c := combineContent (writeChunks podcast_id bodyOf [] idx) C
       let st := sanitize_filename title
       if return_base64 then
         ([], .ok { status := "success", audio_file_url := none,
                    audio_base64 := some (base64Encode c) })
       else
         ([(finalPath st podcast_id, c)],
          .ok { status := "success",
                audio_file_url :=
                  some (base_url ++ "files/" ++ finalFilename st podcast_id),
                audio_base64 := none })) := by
  have hloop := synthLoop_ok api_key tts presenters podcast_id stOf bodyOf
    hkey htts hst script.enum []
  have hfp : finalPath (sanitize_filename title) podcast_id ∉
      (processedIdx presenters script.enum).map (chunkPath podcast_id) := by
    intro hmem
    obtain ⟨i, _, hi⟩ := List.mem_map.mp hmem
    exact chunkPath_ne_finalPath podcast_id podcast_id
      (sanitize_filename title) i hpid hi
  have hmem1 : ∀ e ∈ writeChunks podcast_id bodyOf []
      (processedIdx presenters script.enum),
      e.1 ∈ (processedIdx presenters script.enum).map (chunkPath podcast_id) := by
    intro e he
    rcases mem_writeChunks podcast_id bodyOf _ [] e he with h | h
    · exact absurd h (List.not_mem_nil e)
    · exact h
  have hcc := cleanup_combine
    (writeChunks podcast_id bodyOf [] (processedIdx presenters script.enum))
    ((processedIdx presenters script.enum).map (chunkPath podcast_id))
    (finalPath (sanitize_filename title) podcast_id) hmem1 hfp
  have hfinal : FILES_DIR ++ "/" ++
      finalFilename (sanitize_filename title) podcast_id =
      finalPath (sanitize_filename title) podcast_id := rfl
  simp only [generate_audio_from_script, hloop, hfinal, hcc]
  by_cases hb : return_base64
  · subst hb
    simp only [if_pos rfl, fsGet, if_pos rfl]
    rw [cleanup_files_eq_filter]
    simp
  · simp only [hb, if_neg, Bool.false_eq_true, if_false]

/-- C1 counterexample: a presenter whose `voice_id` is the empty string.
Its name is a key of the presenter voice map, yet `if not voice_id:`
makes the loop skip the line, so a one-line script creates zero chunk
files instead of exactly one: the loop returns an empty collected list
and never touches the filesystem. -/
theorem audio_from_script_empty_voice_counterexample :
    (voiceMapGet [⟨"Ana", ""⟩, ⟨"Luis", "v2"⟩] "Ana").isSome = true
    ∧ synthLoop (some "k") (fun _ => TtsOutcome.resp 200 [1])
        [⟨"Ana", ""⟩, ⟨"Luis", "v2"⟩] "123e4567-e89b-12d3-a456-426614174000"
        ([⟨"Ana", "hola"⟩] : List ScriptLine).enum [] = ([], .ok [])
    ∧ ([] : List String).length ≠
        ([⟨"Ana", "hola"⟩] : List ScriptLine).length := by
  exact ⟨rfl, rfl, by decide⟩

/-- C1 (amended: every line's speaker must map to a non-empty voice id;
a key with an empty `voice_id` value is skipped by `if not voice_id:`,
see the counterexample): starting from an empty output directory, a run
whose exchanges all succeed creates exactly one chunk file per script
line, named `{run_id}_chunk_{i}.mp3` for `i = 0..N-1` (all distinct),
deletes every chunk before returning, and leaves exactly one final file
when `return_base64` is false and none when it is true. -/
theorem audio_from_script_lifecycle
    (api_key : Option String) (tts : Nat → TtsOutcome)
    (stOf : Nat → Nat) (bodyOf : Nat → Audio)
    (title : String) (script : List ScriptLine) (presenters : List Presenter)
    (return_base64 : Bool) (podcast_id base_url : String)
    (hkey : strFalsy api_key = false)
    (htts : ∀ i, tts i = TtsOutcome.resp (stOf i) (bodyOf i))
    (hst : ∀ i, stOf i < 400)
    (hvoice : ∀ ln ∈ script,
      strFalsy (voiceMapGet presenters ln.speaker) = false)
    (hpid : isUuidLike podcast_id = true) :
    (synthLoop api_key tts presenters podcast_id script.enum []).2 =
        .ok ((List.range script.length).map (chunkPath podcast_id))
    ∧ ((List.range script.length).map (chunkPath podcast_id)).Nodup
    ∧ (∀ i, fsGet (generate_audio_from_script api_key tts title script
          presenters return_base64 podcast_id base_url []).1
          (chunkPath podcast_id i) = none)
    ∧ (∃ resp, (generate_audio_from_script api_key tts title script
          presenters return_base64 podcast_id base_url []).2 = .ok resp)
    ∧ (return_base64 = false → ∃ c,
        (generate_audio_from_script api_key tts title script presenters
          return_base64 podcast_id base_url []).1 =
          [(finalPath (sanitize_filename title) podcast_id, c)])
    ∧ (return_base64 = true →
        (generate_audio_from_script api_key tts title script presenters
          return_base64 podcast_id base_url []).1 = []) := by
  have hidx : processedIdx presenters script.enum =
      List.range script.length := by
    unfold processedIdx
    rw [List.filter_eq_self.mpr, List.enum_map_fst]
    intro p hp
    have hsnd : p.2 ∈ script := by
      have := List.mem_map_of_mem Prod.snd hp
      rwa [List.enum_map_snd] at this
    simp [hvoice p.2 hsnd]
  have hrun := generate_audio_from_script_run api_key tts stOf bodyOf title
    script presenters return_base64 podcast_id base_url hkey htts hst hpid
  simp only [hidx] at hrun
  have hinj : Function.Injective (chunkPath podcast_id) :=
    fun i j h => chunkPath_inj podcast_id h
  refine ⟨?_, ?_, ?_, ?_, ?_, ?_⟩
  · rw [synthLoop_ok api_key tts presenters podcast_id stOf bodyOf hkey
      htts hst script.enum [], hidx]
  · exact List.Nodup.map hinj (List.nodup_range script.length)
  · intro i
    cases return_base64 with
    | false =>
      simp only [Bool.false_eq_true, if_false] at hrun
      rw [hrun]
      have hne : ¬ (finalPath (sanitize_filename title) podcast_id =
          chunkPath podcast_id i) :=
        fun h => chunkPath_ne_finalPath podcast_id podcast_id
          (sanitize_filename title) i hpid h.symm
      simp [fsGet, hne]
    | true =>
      simp only [if_true] at hrun
      rw [hrun]
      rfl
  · cases return_base64 with
    | false =>
      simp only [Bool.false_eq_true, if_false] at hrun
      exact ⟨_, by rw [hrun]⟩
    | true =>
      simp only [if_true] at hrun
      exact ⟨_, by rw [hrun]⟩
  · intro hb
    subst hb
    simp only [Bool.false_eq_true, if_false] at hrun
    exact ⟨_, by rw [hrun]⟩
  · intro hb
    subst hb
    simp only [if_true] at hrun
    rw [hrun]

/-- Witness for C1 at a concrete two-line script. -/
theorem audio_from_script_lifecycle_instance :
    (strFalsy (some "k") = false
      ∧ (∀ ln ∈ ([⟨"Ana", "hola"⟩, ⟨"Luis", "mundo"⟩] : List ScriptLine),
          strFalsy (voiceMapGet [⟨"Ana", "v1"⟩, ⟨"Luis", "v2"⟩]
            ln.speaker) = false)
      ∧ isUuidLike "123e4567-e89b-12d3-a456-426614174000" = true)
    ∧ ((synthLoop (some "k") (fun i => TtsOutcome.resp 200 [i])
          [⟨"Ana", "v1"⟩, ⟨"Luis", "v2"⟩]
          "123e4567-e89b-12d3-a456-426614174000"
          ([⟨"Ana", "hola"⟩, ⟨"Luis", "mundo"⟩] : List ScriptLine).enum []).2 =
        .ok ((List.range 2).map
          (chunkPath "123e4567-e89b-12d3-a456-426614174000"))
      ∧ (∀ i, fsGet (generate_audio_from_script (some "k")
            (fun i => TtsOutcome.resp 200 [i]) "Mi Podcast"
            [⟨"Ana", "hola"⟩, ⟨"Luis", "mundo"⟩]
            [⟨"Ana", "v1"⟩, ⟨"Luis", "v2"⟩] false
            "123e4567-e89b-12d3-a456-426614174000" "http://h/" []).1
            (chunkPath "123e4567-e89b-12d3-a456-426614174000" i) = none)
      ∧ (∃ c, (generate_audio_from_script (some "k")
            (fun i => TtsOutcome.resp 200 [i]) "Mi Podcast"
            [⟨"Ana", "hola"⟩, ⟨"Luis", "mundo"⟩]
            [⟨"Ana", "v1"⟩, ⟨"Luis", "v2"⟩] false
            "123e4567-e89b-12d3-a456-426614174000" "http://h/" []).1 =
            [(finalPath (sanitize_filename "Mi Podcast")
              "123e4567-e89b-12d3-a456-426614174000", c)])) := by
  have h := audio_from_script_lifecycle (some "k")
    (fun i => TtsOutcome.resp 200 [i]) (fun _ => 200) (fun i => [i])
    "Mi Podcast" [⟨"Ana", "hola"⟩, ⟨"Luis", "mundo"⟩]
    [⟨"Ana", "v1"⟩, ⟨"Luis", "v2"⟩] false
    "123e4567-e89b-12d3-a456-426614174000" "http://h/"
    rfl (fun _ => rfl) (fun _ => show (200 : Nat) < 400 by decide)
    (by decide) (by decide)
  exact ⟨⟨rfl, by decide, by decide⟩, h.1, h.2.2.1, h.2.2.2.2.1 rfl⟩

/-- C2: a script line whose speaker is not a key of the presenter voice
map produces no chunk (its chunk path is absent from the collected
list), the collected chunks are exactly those of the matched lines (so
the final audio combines only those), the chunk count is bounded by the
line count, and the whole operation still succeeds. -/
theorem unmatched_speaker_skipped
    (api_key : Option String) (tts : Nat → TtsOutcome)
    (stOf : Nat → Nat) (bodyOf : Nat → Audio)
    (title : String) (script : List ScriptLine) (presenters : List Presenter)
    (return_base64 : Bool) (podcast_id base_url : String) (j : Nat)
    (hkey : strFalsy api_key = false)
    (htts : ∀ i, tts i = TtsOutcome.resp (stOf i) (bodyOf i))
    (hst : ∀ i, stOf i < 400)
    (hpid : isUuidLike podcast_id = true)
    (hj : j < script.length)
    (hunmatched : voiceMapGet presenters (script.get ⟨j, hj⟩).speaker = none) :
    (synthLoop api_key tts presenters podcast_id script.enum []).2 =
        .ok ((processedIdx presenters script.enum).map (chunkPath podcast_id))
    ∧ chunkPath podcast_id j ∉
        (processedIdx presenters script.enum).map (chunkPath podcast_id)
    ∧ ((processedIdx presenters script.enum).map
        (chunkPath podcast_id)).length ≤ script.length
    ∧ (∃ resp, (generate_audio_from_script api_key tts title script
          presenters return_base64 podcast_id base_url []).2 = .ok resp) := by
  have hrun := generate_audio_from_script_run api_key tts stOf bodyOf title
    script presenters return_base64 podcast_id base_url hkey htts hst hpid
  refine ⟨?_, ?_, ?_, ?_⟩
  · rw [synthLoop_ok api_key tts presenters podcast_id stOf bodyOf hkey
      htts hst script.enum []]
  · intro hmem
    obtain ⟨i, hi, hieq⟩ := List.mem_map.mp hmem
    have hij : i = j := chunkPath_inj podcast_id hieq
    subst hij
    obtain ⟨p, hp, hpeq⟩ := List.mem_map.mp hi
    have hpenum := List.mem_of_mem_filter hp
    have hget := List.mem_enum_iff_get?.mp hpenum
    rw [hpeq] at hget
    rw [List.get?_eq_get hj] at hget
    have hsnd : p.2 = script.get ⟨i, hj⟩ := by
      injection hget with h
      exact h.symm
    have hflt := List.of_mem_filter hp
    rw [hsnd] at hflt
    rw [hunmatched] at hflt
    simp [strFalsy] at hflt
  · calc ((processedIdx presenters script.enum).map
          (chunkPath podcast_id)).length
        = (processedIdx presenters script.enum).length := List.length_map _ _
      _ ≤ script.enum.length := by
          rw [processedIdx, List.length_map]
          exact List.length_filter_le _ _
      _ = script.length := List.enum_length
  · cases return_base64 with
    | false =>
      simp only [Bool.false_eq_true, if_false] at hrun
      exact ⟨_, by rw [hrun]⟩
    | true =>
      simp only [if_true] at hrun
      exact ⟨_, by rw [hrun]⟩

/-- Witness for C2: a two-line script whose second speaker is unknown. -/
theorem unmatched_speaker_skipped_instance :
    (strFalsy (some "k") = false
      ∧ isUuidLike "123e4567-e89b-12d3-a456-426614174000" = true
      ∧ (1 : Nat) < ([⟨"Ana", "hola"⟩, ⟨"Pepe", "eh"⟩] : List ScriptLine).length
      ∧ voiceMapGet [⟨"Ana", "v1"⟩, ⟨"Luis", "v2"⟩]
          (([⟨"Ana", "hola"⟩, ⟨"Pepe", "eh"⟩] :
            List ScriptLine).get ⟨1, by decide⟩).speaker = none)
    ∧ chunkPath "123e4567-e89b-12d3-a456-426614174000" 1 ∉
        (processedIdx [⟨"Ana", "v1"⟩, ⟨"Luis", "v2"⟩]
          ([⟨"Ana", "hola"⟩, ⟨"Pepe", "eh"⟩] : List ScriptLine).enum).map
          (chunkPath "123e4567-e89b-12d3-a456-426614174000")
    ∧ ((processedIdx [⟨"Ana", "v1"⟩, ⟨"Luis", "v2"⟩]
          ([⟨"Ana", "hola"⟩, ⟨"Pepe", "eh"⟩] : List ScriptLine).enum).map
          (chunkPath "123e4567-e89b-12d3-a456-426614174000")).length ≤ 2
    ∧ (∃ resp, (generate_audio_from_script (some "k")
          (fun i => TtsOutcome.resp 200 [i]) "Mi Podcast"
          [⟨"Ana", "hola"⟩, ⟨"Pepe", "eh"⟩]
          [⟨"Ana", "v1"⟩, ⟨"Luis", "v2"⟩] false
          "123e4567-e89b-12d3-a456-426614174000" "http://h/" []).2 =
          .ok resp) := by
  have h := unmatched_speaker_skipped (some "k")
    (fun i => TtsOutcome.resp 200 [i]) (fun _ => 200) (fun i => [i])
    "Mi Podcast" [⟨"Ana", "hola"⟩, ⟨"Pepe", "eh"⟩]
    [⟨"Ana", "v1"⟩, ⟨"Luis", "v2"⟩] false
    "123e4567-e89b-12d3-a456-426614174000" "http://h/" 1
    rfl (fun _ => rfl) (fun _ => show (200 : Nat) < 400 by decide)
    (by decide) (by decide) rfl
  exact ⟨⟨rfl, by decide, by decide, rfl⟩, h.2.1, h.2.2.1, h.2.2.2⟩

/-- C7: the operation is not atomic on error.  On a two-line script
where line 0 synthesizes successfully and line 1's exchange fails, the
error is surfaced while the chunk file of line 0 is still on disk, and
no final file was produced. -/
theorem partial_failure_leaves_chunks :
    generate_audio_from_script (some "k")
        (fun i => if i = 0 then TtsOutcome.resp 200 [7]
                  else TtsOutcome.netFail "boom")
        "Mi Podcast" [⟨"Ana", "hola"⟩, ⟨"Luis", "mundo"⟩]
        [⟨"Ana", "v1"⟩, ⟨"Luis", "v2"⟩] false
        "123e4567-e89b-12d3-a456-426614174000" "http://h/" [] =
      ([(chunkPath "123e4567-e89b-12d3-a456-426614174000" 0, [7])],
       .error (.upstream "Error calling ElevenLabs API: boom"))
    ∧ fsGet [(chunkPath "123e4567-e89b-12d3-a456-426614174000" 0, [7])]
        (chunkPath "123e4567-e89b-12d3-a456-426614174000" 0) = some [7]
    ∧ fsGet [(chunkPath "123e4567-e89b-12d3-a456-426614174000" 0, [7])]
        (finalPath (sanitize_filename "Mi Podcast")
          "123e4567-e89b-12d3-a456-426614174000") = none := by
  refine ⟨rfl, by simp [fsGet], ?_⟩
  have hne : ¬ (chunkPath "123e4567-e89b-12d3-a456-426614174000" 0 =
      finalPath (sanitize_filename "Mi Podcast")
        "123e4567-e89b-12d3-a456-426614174000") :=
    chunkPath_ne_finalPath _ _ _ 0 (by decide)
  simp [fsGet, hne]

/-- C9: every successful response of the audio-from-script and
full-pipeline operations has status `"success"` and carries exactly one
of the two audio fields, selected by `return_base64`. -/
theorem success_response_shape :
    (∀ (api_key : Option String) (tts : Nat → TtsOutcome) (title : String)
        (script : List ScriptLine) (presenters : List Presenter)
        (return_base64 : Bool) (podcast_id base_url : String) (fs fs2 : FS)
        (resp : AudioResponse),
      generate_audio_from_script api_key tts title script presenters
          return_base64 podcast_id base_url fs = (fs2, .ok resp) →
      resp.status = "success"
      ∧ (return_base64 = true →
          resp.audio_base64.isSome = true ∧ resp.audio_file_url = none)
      ∧ (return_base64 = false →
          resp.audio_file_url.isSome = true ∧ resp.audio_base64 = none))
    ∧ (∀ (gemini_key elevenlabs_key : Option String)
        (gemini_outcome : GeminiOutcome) (tts : Nat → TtsOutcome)
        (presenters : List Presenter) (return_base64 : Bool)
        (podcast_id base_url : String) (fs fs2 : FS) (resp : PodcastResponse),
      generate_podcast gemini_key elevenlabs_key gemini_outcome tts presenters
          return_base64 podcast_id base_url fs = (fs2, .ok resp) →
      resp.status = "success"
      ∧ (return_base64 = true →
          resp.audio_base64.isSome = true ∧ resp.audio_file_url = none)
      ∧ (return_base64 = false →
          resp.audio_file_url.isSome = true ∧ resp.audio_base64 = none)) := by
  constructor
  · intro api_key tts title script presenters return_base64 podcast_id
      base_url fs fs2 resp h
    rw [generate_audio_from_script] at h
    cases hloop : synthLoop api_key tts presenters podcast_id script.enum fs with
    | mk fs1 res =>
      rw [hloop] at h
      cases res with
      | error e => simp at h
      | ok paths =>
        simp only at h
        cases return_base64 with
        | false =>
          simp only [Bool.false_eq_true, if_false, Prod.mk.injEq] at h
          obtain ⟨-, h2⟩ := h
          cases h2
          exact ⟨rfl, by simp, fun _ => by simp⟩
        | true =>
          simp only [if_true] at h
          cases hget : fsGet (cleanup_files
              (combine_audio_files fs1 paths
                (FILES_DIR ++ "/" ++ finalFilename (sanitize_filename title)
                  podcast_id)) paths)
              (FILES_DIR ++ "/" ++ finalFilename (sanitize_filename title)
                podcast_id) with
          | none =>
            rw [hget] at h
            simp at h
          | some content =>
            rw [hget] at h
            simp only [Prod.mk.injEq] at h
            obtain ⟨-, h2⟩ := h
            cases h2
            exact ⟨rfl, fun _ => by simp, by simp⟩
  · intro gemini_key elevenlabs_key gemini_outcome tts presenters
      return_base64 podcast_id base_url fs fs2 resp h
    rw [generate_podcast] at h
    cases hgs : generate_script gemini_key gemini_outcome with
    | error e => rw [hgs] at h; simp at h
    | ok fields =>
      rw [hgs] at h
      simp only at h
      cases hsi : scriptItems ((jGet fields "script").getD .null) with
      | error e => rw [hsi] at h; simp at h
      | ok items =>
        rw [hsi] at h
        simp only at h
        cases hloop : podcastLoop elevenlabs_key tts presenters podcast_id
            items.enum fs with
        | mk fs1 res =>
          rw [hloop] at h
          cases res with
          | error e => simp at h
          | ok paths =>
            simp only at h
            cases htitle : (jGet fields "title").getD .null with
            | str title =>
              rw [htitle] at h
              simp only at h
              cases return_base64 with
              | false =>
                simp only [Bool.false_eq_true, if_false, Prod.mk.injEq] at h
                obtain ⟨-, h2⟩ := h
                cases h2
                exact ⟨rfl, by simp, fun _ => by simp⟩
              | true =>
                simp only [if_true] at h
                cases hget : fsGet (cleanup_files
                    (combine_audio_files fs1 paths
                      (FILES_DIR ++ "/" ++
                        finalFilename (sanitize_filename title) podcast_id))
                    paths)
                    (FILES_DIR ++ "/" ++
                      finalFilename (sanitize_filename title) podcast_id) with
                | none => rw [hget] at h; simp at h
                | some content =>
                  rw [hget] at h
                  simp only [Prod.mk.injEq] at h
                  obtain ⟨-, h2⟩ := h
                  cases h2
                  exact ⟨rfl, fun _ => by simp, by simp⟩
            | null => rw [htitle] at h; simp at h
            | bool b => rw [htitle] at h; simp at h
            | num n => rw [htitle] at h; simp at h
            | arr l => rw [htitle] at h; simp at h
            | obj l => rw [htitle] at h; simp at h

/-- Witness for C9: concrete successful runs of both operations. -/
theorem success_response_shape_instance :
    (generate_audio_from_script (some "k") (fun _ => TtsOutcome.resp 200 [])
        "t" [] [] false "123e4567-e89b-12d3-a456-426614174000" "http://h/" [] =
      ([(finalPath (sanitize_filename "t")
          "123e4567-e89b-12d3-a456-426614174000", [])],
       .ok { status := "success",
             audio_file_url := some ("http://h/" ++ "files/" ++
               finalFilename (sanitize_filename "t")
                 "123e4567-e89b-12d3-a456-426614174000"),
             audio_base64 := none }))
    ∧ (({ status := "success",
          audio_file_url := some ("http://h/" ++ "files/" ++
            finalFilename (sanitize_filename "t")
              "123e4567-e89b-12d3-a456-426614174000"),
          audio_base64 := none } : AudioResponse).status = "success"
        ∧ (false = true →
            ({ status := "success",
               audio_file_url := some ("http://h/" ++ "files/" ++
                 finalFilename (sanitize_filename "t")
                   "123e4567-e89b-12d3-a456-426614174000"),
               audio_base64 := none } : AudioResponse).audio_base64.isSome = true
            ∧ ({ status := "success",
                 audio_file_url := some ("http://h/" ++ "files/" ++
                   finalFilename (sanitize_filename "t")
                     "123e4567-e89b-12d3-a456-426614174000"),
                 audio_base64 := none } : AudioResponse).audio_file_url = none)
        ∧ (false = false →
            ({ status := "success",
               audio_file_url := some ("http://h/" ++ "files/" ++
                 finalFilename (sanitize_filename "t")
                   "123e4567-e89b-12d3-a456-426614174000"),
               audio_base64 := none } : AudioResponse).audio_file_url.isSome = true
            ∧ ({ status := "success",
                 audio_file_url := some ("http://h/" ++ "files/" ++
                   finalFilename (sanitize_filename "t")
                     "123e4567-e89b-12d3-a456-426614174000"),
                 audio_base64 := none } : AudioResponse).audio_base64 = none))
    ∧ (generate_podcast (some "g") (some "k")
        (.resp 200 (some (.obj
          [("title", Json.str "t"), ("script", Json.arr [])])))
        (fun _ => TtsOutcome.resp 200 []) [] false
        "123e4567-e89b-12d3-a456-426614174000" "http://h/" [] =
      ([(finalPath (sanitize_filename "t")
          "123e4567-e89b-12d3-a456-426614174000", [])],
       .ok { title := "t", status := "success", script := Json.arr [],
             audio_file_url := some ("http://h/" ++ "files/" ++
               finalFilename (sanitize_filename "t")
                 "123e4567-e89b-12d3-a456-426614174000"),
             audio_base64 := none }))
    ∧ (({ title := "t", status := "success", script := Json.arr [],
          audio_file_url := some ("http://h/" ++ "files/" ++
            finalFilename (sanitize_filename "t")
              "123e4567-e89b-12d3-a456-426614174000"),
          audio_base64 := none } : PodcastResponse).status = "success"
        ∧ (false = true →
            ({ title := "t", status := "success", script := Json.arr [],
               audio_file_url := some ("http://h/" ++ "files/" ++
                 finalFilename (sanitize_filename "t")
                   "123e4567-e89b-12d3-a456-426614174000"),
               audio_base64 := none } : PodcastResponse).audio_base64.isSome = true
            ∧ ({ title := "t", status := "success", script := Json.arr [],
                 audio_file_url := some ("http://h/" ++ "files/" ++
                   finalFilename (sanitize_filename "t")
                     "123e4567-e89b-12d3-a456-426614174000"),
                 audio_base64 := none } : PodcastResponse).audio_file_url = none)
        ∧ (false = false →
            ({ title := "t", status := "success", script := Json.arr [],
               audio_file_url := some ("http://h/" ++ "files/" ++
                 finalFilename (sanitize_filename "t")
                   "123e4567-e89b-12d3-a456-426614174000"),
               audio_base64 := none } : PodcastResponse).audio_file_url.isSome = true
            ∧ ({ title := "t", status := "success", script := Json.arr [],
                 audio_file_url := some ("http://h/" ++ "files/" ++
                   finalFilename (sanitize_filename "t")
                     "123e4567-e89b-12d3-a456-426614174000"),
                 audio_base64 := none } : PodcastResponse).audio_base64 = none)) := by
  refine ⟨rfl, ?_, rfl, ?_⟩
  · exact success_response_shape.1 (some "k") (fun _ => TtsOutcome.resp 200 [])
      "t" [] [] false "123e4567-e89b-12d3-a456-426614174000" "http://h/" [] _ _ rfl
  · exact success_response_shape.2 (some "g") (some "k")
      (.resp 200 (some (.obj
        [("title", Json.str "t"), ("script", Json.arr [])])))
      (fun _ => TtsOutcome.resp 200 []) [] false
      "123e4567-e89b-12d3-a456-426614174000" "http://h/" [] _ _ rfl

/-- C10: the full-pipeline loop silently skips a script line whose
speaker or dialogue value is missing or falsy, before any voice lookup
(the equation holds for every presenter list); the audio-from-script
loop has no such check: for a matched speaker it calls the synthesis
client even when the line text is empty, writing a chunk on success and
surfacing the upstream error on failure. -/
theorem empty_line_check_difference :
    (∀ (api_key : Option String) (tts : Nat → TtsOutcome)
        (presenters : List Presenter) (podcast_id : String) (i : Nat)
        (fields : List (String × Json)) (rest : List (Nat × Json)) (fs : FS),
      (optJsonFalsy (jGet fields "speaker") = true
        ∨ optJsonFalsy (jGet fields "line") = true) →
      podcastLoop api_key tts presenters podcast_id
          ((i, Json.obj fields) :: rest) fs =
        podcastLoop api_key tts presenters podcast_id rest fs)
    ∧ (∀ (api_key : Option String) (tts : Nat → TtsOutcome)
        (presenters : List Presenter) (podcast_id : String) (i st : Nat)
        (speaker : String) (body : Audio) (fs : FS),
      strFalsy api_key = false →
      strFalsy (voiceMapGet presenters speaker) = false →
      tts i = TtsOutcome.resp st body → st < 400 →
      synthLoop api_key tts presenters podcast_id [(i, ⟨speaker, ""⟩)] fs =
        (fsWrite fs (chunkPath podcast_id i) body,
         .ok [chunkPath podcast_id i]))
    ∧ (∀ (api_key : Option String) (tts : Nat → TtsOutcome)
        (presenters : List Presenter) (podcast_id : String) (i : Nat)
        (speaker msg : String) (fs : FS),
      strFalsy api_key = false →
      strFalsy (voiceMapGet presenters speaker) = false →
      tts i = TtsOutcome.netFail msg →
      synthLoop api_key tts presenters podcast_id [(i, ⟨speaker, ""⟩)] fs =
        (fs, .error (.upstream ("Error calling ElevenLabs API: " ++ msg)))) := by
  refine ⟨?_, ?_, ?_⟩
  · intro api_key tts presenters podcast_id i fields rest fs hfalsy
    have hcond : (optJsonFalsy (jGet fields "speaker")
        || optJsonFalsy (jGet fields "line")) = true := by
      rcases hfalsy with h | h <;> simp [h]
    simp [podcastLoop, hcond]
  · intro api_key tts presenters podcast_id i st speaker body fs
      hkey hvoice htts hst
    rw [show synthLoop api_key tts presenters podcast_id
        [(i, ⟨speaker, ""⟩)] fs =
        match generate_audio_for_line api_key (tts i) ""
            ((voiceMapGet presenters speaker).getD "")
            (chunkPath podcast_id i) fs with
        | (fs1, .error e) => (fs1, .error e)
        | (fs1, .ok _) =>
          match synthLoop api_key tts presenters podcast_id [] fs1 with
          | (fs2, .ok paths) => (fs2, .ok (chunkPath podcast_id i :: paths))
          | (fs2, .error e) => (fs2, .error e) from by
      simp [synthLoop, hvoice]]
    rw [htts, generate_audio_for_line_ok api_key st body _ _ _ fs hkey hst]
    simp [synthLoop]
  · intro api_key tts presenters podcast_id i speaker msg fs
      hkey hvoice htts
    rw [show synthLoop api_key tts presenters podcast_id
        [(i, ⟨speaker, ""⟩)] fs =
        match generate_audio_for_line api_key (tts i) ""
            ((voiceMapGet presenters speaker).getD "")
            (chunkPath podcast_id i) fs with
        | (fs1, .error e) => (fs1, .error e)
        | (fs1, .ok _) =>
          match synthLoop api_key tts presenters podcast_id [] fs1 with
          | (fs2, .ok paths) => (fs2, .ok (chunkPath podcast_id i :: paths))
          | (fs2, .error e) => (fs2, .error e) from by
      simp [synthLoop, hvoice]]
    rw [htts]
    simp [generate_audio_for_line, hkey]

/-- Witness for C10: a podcast line with an empty dialogue is skipped,
while the audio-from-script loop synthesizes an empty line text. -/
theorem empty_line_check_difference_instance :
    (optJsonFalsy (jGet [("speaker", Json.str "Ana"), ("line", Json.str "")]
        "line") = true
      ∧ strFalsy (some "k") = false
      ∧ strFalsy (voiceMapGet [⟨"Ana", "v1"⟩] "Ana") = false
      ∧ (fun _ : Nat => TtsOutcome.resp 200 [9]) 0 = TtsOutcome.resp 200 [9]
      ∧ (200 : Nat) < 400
      ∧ (fun _ : Nat => TtsOutcome.netFail "boom") 0 =
          TtsOutcome.netFail "boom")
    ∧ podcastLoop (some "k") (fun _ => TtsOutcome.resp 200 [9]) [⟨"Ana", "v1"⟩]
        "123e4567-e89b-12d3-a456-426614174000"
        ((0, Json.obj [("speaker", Json.str "Ana"), ("line", Json.str "")])
          :: []) [] =
      podcastLoop (some "k") (fun _ => TtsOutcome.resp 200 [9]) [⟨"Ana", "v1"⟩]
        "123e4567-e89b-12d3-a456-426614174000" [] []
    ∧ synthLoop (some "k") (fun _ => TtsOutcome.resp 200 [9]) [⟨"Ana", "v1"⟩]
        "123e4567-e89b-12d3-a456-426614174000" [(0, ⟨"Ana", ""⟩)] [] =
      (fsWrite [] (chunkPath "123e4567-e89b-12d3-a456-426614174000" 0) [9],
       .ok [chunkPath "123e4567-e89b-12d3-a456-426614174000" 0])
    ∧ synthLoop (some "k") (fun _ => TtsOutcome.netFail "boom") [⟨"Ana", "v1"⟩]
        "123e4567-e89b-12d3-a456-426614174000" [(0, ⟨"Ana", ""⟩)] [] =
      ([], .error (.upstream ("Error calling ElevenLabs API: " ++ "boom"))) := by
  refine ⟨⟨rfl, rfl, rfl, rfl, by decide, rfl⟩, ?_, ?_, ?_⟩
  · exact empty_line_check_difference.1 (some "k")
      (fun _ => TtsOutcome.resp 200 [9]) [⟨"Ana", "v1"⟩]
      "123e4567-e89b-12d3-a456-426614174000" 0
      [("speaker", Json.str "Ana"), ("line", Json.str "")] [] []
      (Or.inr rfl)
  · exact empty_line_check_difference.2.1 (some "k")
      (fun _ => TtsOutcome.resp 200 [9]) [⟨"Ana", "v1"⟩]
      "123e4567-e89b-12d3-a456-426614174000" 0 200 "Ana" [9] []
      rfl rfl rfl (by decide)
  · exact empty_line_check_difference.2.2 (some "k")
      (fun _ => TtsOutcome.netFail "boom") [⟨"Ana", "v1"⟩]
      "123e4567-e89b-12d3-a456-426614174000" 0 "Ana" "boom" []
      rfl rfl rfl
